import Mathlib

/-! Quarto engine: shallow embedding and verification.

A shallow embedding of the Quarto game core of this repository
(`src/game_logic/game_state.py` and `src/game_logic/rules_engine.py`),
together with proofs settling the frozen claims about it.

Modelling conventions:
* Python `int` is `Int`; board coordinates are passed as `Int` and the
  4×4 board is a total function `Fin 4 → Fin 4 → Option QuartoPiece`
  (the Python board is always a 4×4 list of lists and is only indexed
  after a bounds check).
* The Python `set` of available piece ids is a `Finset Int`.
* Python `set.remove` raises `KeyError` when the element is absent;
  engine calls that can raise therefore return a `PyResult` that
  distinguishes a normal boolean return from a raised exception,
  *paired with the state at the moment of return or raise* — Python
  mutates the `GameState` in place, so a caller observes the partial
  mutations performed before an exception was raised.
-/

namespace Quarto

/-- The `Player` enumeration from `game_state.py`. -/
inductive Player where
  | player1
  | player2
  | robot
deriving DecidableEq, Repr

/-- The `GameStatus` enumeration from `game_state.py`. -/
inductive GameStatus where
  | ongoing
  | finished
  | draw
deriving DecidableEq, Repr

/-- The `QuartoPiece` record from `game_state.py`: an id plus four boolean
attributes. -/
structure QuartoPiece where
  id : Int
  tall : Bool
  square : Bool
  light : Bool
  solid : Bool
deriving DecidableEq, Repr

/-- The 4×4 board: `board[row][col]` is an optional piece. -/
abbrev Board := Fin 4 → Fin 4 → Option QuartoPiece

/-- The `GameState` record from `game_state.py`. -/
structure GameState where
  game_id : String
  current_player : Player
  board : Board
  available_pieces : Finset Int
  selected_piece : Option QuartoPiece
  game_status : GameStatus
  winner : Option Player
  turn_count : Int
deriving DecidableEq

/-- Result of a Python call that can either return a `bool` or raise. -/
inductive PyResult where
  | ok (b : Bool)
  | keyError
  | valueError
deriving DecidableEq, Repr

/-- Python `set.remove`: removes the element, or raises `KeyError` (here: `none`)
when the element is not present. -/
def set_remove (s : Finset Int) (x : Int) : Option (Finset Int) :=
  if x ∈ s then some (s.erase x) else none

/-- Reading `board[row][col]` after the Python-side bounds check
`0 <= row < 4 and 0 <= col < 4`. -/
def board_cell (b : Board) (row col : Int) : Option QuartoPiece :=
  if h : 0 ≤ row ∧ row < 4 ∧ 0 ≤ col ∧ col < 4 then
    b ⟨row.toNat, by omega⟩ ⟨col.toNat, by omega⟩
  else none

/-- Writing `board[row][col] = piece` for in-range coordinates (the engine
only writes after its bounds check passed). -/
def set_cell (b : Board) (row col : Int) (p : QuartoPiece) : Board :=
  fun i j => if ((i : Nat) : Int) = row ∧ ((j : Nat) : Int) = col then some p else b i j

/-- The method `GameState.get_piece_at` from `game_state.py`: the cell content when both
coordinates are in `[0,3]`, `None` otherwise. -/
def get_piece_at (s : GameState) (row col : Int) : Option QuartoPiece :=
  if h : 0 ≤ row ∧ row < 4 ∧ 0 ≤ col ∧ col < 4 then
    s.board ⟨row.toNat, by omega⟩ ⟨col.toNat, by omega⟩
  else none

/-- The method `QuartoRulesEngine.create_piece_from_id`: bit-decomposition of the id
(bit 0 = tall, bit 1 = square, bit 2 = light, bit 3 = solid); raises
`ValueError` (here: `none`) for an id outside `[0,15]`. -/
def create_piece_from_id (piece_id : Int) : Option QuartoPiece :=
  if 0 ≤ piece_id ∧ piece_id ≤ 15 then
    some { id := piece_id
         , tall := piece_id.toNat &&& 1 != 0
         , square := piece_id.toNat &&& 2 != 0
         , light := piece_id.toNat &&& 4 != 0
         , solid := piece_id.toNat &&& 8 != 0 }
  else none

/-- The method `QuartoRulesEngine.get_all_pieces`: the 16 canonical pieces, ids
ascending.  (For ids in `range(16)` creation always succeeds, so the Python
list comprehension never raises.) -/
def get_all_pieces : List QuartoPiece :=
  (List.range 16).filterMap fun piece_id => create_piece_from_id (piece_id : Int)

/-- The method `check_line_for_shared_attribute`: four pieces win when, on at least one
of the four attribute projections, the set of values collapses to a
singleton (`len(set(attr)) == 1`). -/
def check_line_for_shared_attribute (pieces : List QuartoPiece) : Bool :=
  if pieces.length ≠ 4 then false
  else
    let attrLists := [ pieces.map (·.tall), pieces.map (·.square)
                     , pieces.map (·.light), pieces.map (·.solid) ]
    attrLists.any fun attr => attr.toFinset.card == 1

/-- The method `check_row_win`: the row's four cells, all occupied, share an attribute. -/
def check_row_win (s : GameState) (row : Fin 4) : Bool :=
  let pieces := (List.finRange 4).map fun col => s.board row col
  if pieces.any (·.isNone) then false
  else check_line_for_shared_attribute (pieces.filterMap id)

/-- The method `check_column_win`: the column's four cells, all occupied, share an
attribute. -/
def check_column_win (s : GameState) (col : Fin 4) : Bool :=
  let pieces := (List.finRange 4).map fun row => s.board row col
  if pieces.any (·.isNone) then false
  else check_line_for_shared_attribute (pieces.filterMap id)

/-- The method `check_diagonal_wins`: either diagonal, fully occupied, shares an
attribute.  (`all(piece is not None)` is the negation of
`any(piece is None)`.) -/
def check_diagonal_wins (s : GameState) : Bool :=
  let md := (List.finRange 4).map fun i => s.board i i
  let ad := (List.finRange 4).map fun i => s.board i (3 - i)
  (if md.any (·.isNone) then false
   else check_line_for_shared_attribute (md.filterMap id)) ||
  (if ad.any (·.isNone) then false
   else check_line_for_shared_attribute (ad.filterMap id))

/-- The method `check_for_win`: some row, column or diagonal wins. -/
def check_for_win (s : GameState) : Bool :=
  (List.finRange 4).any (fun row => check_row_win s row) ||
  (List.finRange 4).any (fun col => check_column_win s col) ||
  check_diagonal_wins s

/-- The method `is_valid_placement`.  The Python parameter is annotated `QuartoPiece`
but `make_move` passes `game_state.selected_piece`, which may be `None`;
the `(some _, none)` case below is unreachable from the engine (Python
would raise there, but the only engine call site passes
`selected_piece` itself, so both options are always equal). -/
def is_valid_placement (s : GameState) (row col : Int) (piece : Option QuartoPiece) :
    Bool :=
  if ¬(0 ≤ row ∧ row < 4 ∧ 0 ≤ col ∧ col < 4) ∨ (board_cell s.board row col).isSome then
    false
  else
    match s.selected_piece, piece with
    | none, _ => false
    | some sp, some p => if p.id ≠ sp.id then false else true
    | some _, none => false

/-- The method `is_valid_piece_selection`: id in `[0,15]`, id in the pool, and no piece
already pending. -/
def is_valid_piece_selection (s : GameState) (piece_id : Int) : Bool :=
  if piece_id < 0 ∨ piece_id ≥ 16 then false
  else if piece_id ∉ s.available_pieces then false
  else if s.selected_piece.isSome then false
  else true

/-- The method `switch_player`: player1 ↔ player2; robot (and the defensive default
branch) hands over to player1. -/
def switch_player (s : GameState) : GameState :=
  match s.current_player with
  | .player1 => { s with current_player := .player2 }
  | .player2 => { s with current_player := .player1 }
  | .robot => { s with current_player := .player1 }

/-- The method `is_draw`: pool empty and no win. -/
def is_draw (s : GameState) : Bool :=
  s.available_pieces.card == 0 && !check_for_win s

/-- The method `update_game_status`: finished with the current player as winner on a
win, draw on a full pool without a win, ongoing otherwise. -/
def update_game_status (s : GameState) : GameState :=
  if check_for_win s then
    { s with game_status := .finished, winner := some s.current_player }
  else if is_draw s then
    { s with game_status := .draw, winner := none }
  else
    { s with game_status := .ongoing, winner := none }

/-- The method `make_move`, in Python statement order: validate; write the board cell;
`available_pieces.remove(selected_piece.id)` — which raises `KeyError`
when the id is not in the pool, leaving only the board write applied;
then increment `turn_count`, clear `selected_piece`, and recompute the
status. -/
def make_move (s : GameState) (row col : Int) : PyResult × GameState :=
  if ¬ is_valid_placement s row col s.selected_piece then (.ok false, s)
  else
    match s.selected_piece with
    | none => (.ok false, s)
    | some sp =>
      let s1 := { s with board := set_cell s.board row col sp }
      match set_remove s1.available_pieces sp.id with
      | none => (.keyError, s1)
      | some pool2 =>
        let s2 := { s1 with available_pieces := pool2
                          , turn_count := s1.turn_count + 1
                          , selected_piece := none }
        (.ok true, update_game_status s2)

/-- The method `select_piece_for_opponent`, in Python statement order: validate;
construct the piece (`ValueError` is unreachable, validation bounds the
id); store it as `selected_piece`; remove the id from the pool
(`KeyError` is unreachable, validation checked membership); switch the
player. -/
def select_piece_for_opponent (s : GameState) (piece_id : Int) :
    PyResult × GameState :=
  if ¬ is_valid_piece_selection s piece_id then (.ok false, s)
  else
    match create_piece_from_id piece_id with
    | none => (.valueError, s)
    | some p =>
      let s1 := { s with selected_piece := some p }
      match set_remove s1.available_pieces piece_id with
      | none => (.keyError, s1)
      | some pool2 =>
        (.ok true, switch_player { s1 with available_pieces := pool2 })

/-- The full pool `set(range(16))`. -/
def initial_pool : Finset Int :=
  (Finset.range 16).image fun n : Nat => (n : Int)

/-- The all-empty board. -/
def empty_board : Board := fun _ _ => none

/-- The method `reset_game`: empty board, full pool, nothing selected, ongoing with no
winner, turn count 0, player1 to move. -/
def reset_game (s : GameState) : GameState :=
  { s with board := empty_board
         , available_pieces := initial_pool
         , selected_piece := none
         , game_status := .ongoing
         , winner := none
         , turn_count := 0
         , current_player := .player1 }

/-- A fresh `GameState` with the `game_state.py` field defaults. -/
def initialState : GameState :=
  { game_id := "quarto_game_001"
  , current_player := .player1
  , board := empty_board
  , available_pieces := initial_pool
  , selected_piece := none
  , game_status := .ongoing
  , winner := none
  , turn_count := 0 }

/-! ## Specification-side description of win detection (for claim C3) -/

/-- The attribute projections, indexed 0 = tall, 1 = square, 2 = light,
3 = solid. -/
def attr_val (p : QuartoPiece) (a : Fin 4) : Bool :=
  match a.val with
  | 0 => p.tall
  | 1 => p.square
  | 2 => p.light
  | _ => p.solid

/-- The cells of row `r`. -/
def row_line (r : Fin 4) : List (Fin 4 × Fin 4) := [(r, 0), (r, 1), (r, 2), (r, 3)]

/-- The cells of column `c`. -/
def col_line (c : Fin 4) : List (Fin 4 × Fin 4) := [(0, c), (1, c), (2, c), (3, c)]

/-- The main diagonal. -/
def main_diag_line : List (Fin 4 × Fin 4) := [(0, 0), (1, 1), (2, 2), (3, 3)]

/-- The anti-diagonal. -/
def anti_diag_line : List (Fin 4 × Fin 4) := [(0, 3), (1, 2), (2, 1), (3, 0)]

/-- The ten lines of the board: 4 rows, 4 columns, 2 diagonals. -/
def all_lines : List (List (Fin 4 × Fin 4)) :=
  [ row_line 0, row_line 1, row_line 2, row_line 3
  , col_line 0, col_line 1, col_line 2, col_line 3
  , main_diag_line, anti_diag_line ]

/-- All four cells of the line are occupied. -/
def line_occupied (b : Board) (l : List (Fin 4 × Fin 4)) : Prop :=
  ∀ c ∈ l, (b c.1 c.2).isSome = true

/-- The pieces on the line are unanimous on at least one attribute. -/
def line_unanimous (b : Board) (l : List (Fin 4 × Fin 4)) : Prop :=
  ∃ a : Fin 4, ∃ v : Bool, ∀ c ∈ l, ∀ p, b c.1 c.2 = some p → attr_val p a = v

/-- The claim's notion of a won position: some line is fully occupied and its
four pieces share at least one attribute. -/
def SpecWin (s : GameState) : Prop :=
  ∃ l ∈ all_lines, line_occupied s.board l ∧ line_unanimous s.board l

/-- The code's per-line test (the common body of `check_row_win`,
`check_column_win` and `check_diagonal_wins`), applied to a line given by
its cell coordinates. -/
def line_check (b : Board) (l : List (Fin 4 × Fin 4)) : Bool :=
  let cells := l.map fun c => b c.1 c.2
  if cells.any (·.isNone) then false
  else check_line_for_shared_attribute (cells.filterMap id)

lemma check_row_win_eq (s : GameState) (r : Fin 4) :
    check_row_win s r = line_check s.board (row_line r) := rfl

lemma check_column_win_eq (s : GameState) (c : Fin 4) :
    check_column_win s c = line_check s.board (col_line c) := rfl

lemma check_diagonal_wins_eq (s : GameState) :
    check_diagonal_wins s =
      (line_check s.board main_diag_line || line_check s.board anti_diag_line) := rfl

lemma finRange_four : List.finRange 4 = [0, 1, 2, 3] := rfl

/-- Evaluating `len(set(l)) == 1` on an explicit 4-element boolean list says the last
three entries equal the first. -/
lemma card_one_four (x0 x1 x2 x3 : Bool) :
    (([x0, x1, x2, x3].toFinset.card == 1) = true) ↔ (x1 = x0 ∧ x2 = x0 ∧ x3 = x0) := by
  cases x0 <;> cases x1 <;> cases x2 <;> cases x3 <;> decide

/-- Applying `check_line_for_shared_attribute` on four pieces is exactly unanimity of
some attribute projection. -/
lemma shared_iff (p0 p1 p2 p3 : QuartoPiece) :
    check_line_for_shared_attribute [p0, p1, p2, p3] = true ↔
    ∃ a : Fin 4, ∃ v : Bool,
      attr_val p0 a = v ∧ attr_val p1 a = v ∧ attr_val p2 a = v ∧ attr_val p3 a = v := by
  unfold check_line_for_shared_attribute
  simp only [List.length_cons, List.length_nil, List.map_cons, List.map_nil,
    List.any_cons, List.any_nil, Bool.or_false]
  rw [if_neg (by decide)]
  simp only [Bool.or_eq_true, card_one_four]
  constructor
  · rintro (⟨h1, h2, h3⟩ | ⟨h1, h2, h3⟩ | ⟨h1, h2, h3⟩ | ⟨h1, h2, h3⟩)
    · exact ⟨0, p0.tall, rfl, h1, h2, h3⟩
    · exact ⟨1, p0.square, rfl, h1, h2, h3⟩
    · exact ⟨2, p0.light, rfl, h1, h2, h3⟩
    · exact ⟨3, p0.solid, rfl, h1, h2, h3⟩
  · rintro ⟨a, v, h0, h1, h2, h3⟩
    fin_cases a <;> simp only [attr_val] at h0 h1 h2 h3 <;> subst h0 <;>
      simp [h1, h2, h3]

lemma occupied_four (b : Board) (c0 c1 c2 c3 : Fin 4 × Fin 4) :
    line_occupied b [c0, c1, c2, c3] ↔
    ((b c0.1 c0.2).isSome = true ∧ (b c1.1 c1.2).isSome = true ∧
     (b c2.1 c2.2).isSome = true ∧ (b c3.1 c3.2).isSome = true) := by
  unfold line_occupied
  simp [List.forall_mem_cons]

lemma unanimous_four (b : Board) (c0 c1 c2 c3 : Fin 4 × Fin 4)
    (p0 p1 p2 p3 : QuartoPiece)
    (h0 : b c0.1 c0.2 = some p0) (h1 : b c1.1 c1.2 = some p1)
    (h2 : b c2.1 c2.2 = some p2) (h3 : b c3.1 c3.2 = some p3) :
    line_unanimous b [c0, c1, c2, c3] ↔
    ∃ a : Fin 4, ∃ v : Bool,
      attr_val p0 a = v ∧ attr_val p1 a = v ∧ attr_val p2 a = v ∧ attr_val p3 a = v := by
  unfold line_unanimous
  constructor
  · rintro ⟨a, v, h⟩
    exact ⟨a, v, h _ (by simp) _ h0, h _ (by simp) _ h1,
           h _ (by simp) _ h2, h _ (by simp) _ h3⟩
  · rintro ⟨a, v, g0, g1, g2, g3⟩
    refine ⟨a, v, ?_⟩
    intro c hc p hp
    simp only [List.mem_cons, List.not_mem_nil, or_false] at hc
    rcases hc with rfl | rfl | rfl | rfl
    · rw [h0] at hp; injection hp with h; subst h; exact g0
    · rw [h1] at hp; injection hp with h; subst h; exact g1
    · rw [h2] at hp; injection hp with h; subst h; exact g2
    · rw [h3] at hp; injection hp with h; subst h; exact g3

/-- The code's per-line test is exactly the claim's per-line condition. -/
lemma line_check_iff (b : Board) (c0 c1 c2 c3 : Fin 4 × Fin 4) :
    line_check b [c0, c1, c2, c3] = true ↔
    (line_occupied b [c0, c1, c2, c3] ∧ line_unanimous b [c0, c1, c2, c3]) := by
  rw [occupied_four]
  rcases h0 : b c0.1 c0.2 with _ | p0
  · simp [line_check, h0]
  · rcases h1 : b c1.1 c1.2 with _ | p1
    · simp [line_check, h0, h1]
    · rcases h2 : b c2.1 c2.2 with _ | p2
      · simp [line_check, h0, h1, h2]
      · rcases h3 : b c3.1 c3.2 with _ | p3
        · simp [line_check, h0, h1, h2, h3]
        · rw [unanimous_four b c0 c1 c2 c3 p0 p1 p2 p3 h0 h1 h2 h3]
          unfold line_check
          simp only [List.map_cons, List.map_nil, h0, h1, h2, h3, List.any_cons,
            List.any_nil, Option.isNone_some, Bool.or_self, Bool.or_false,
            Bool.false_eq_true, if_false, List.filterMap_cons, id_eq,
            List.filterMap_nil, shared_iff]
          simp

/-- The method `check_for_win` scans exactly the ten lines with the per-line test. -/
lemma check_for_win_eq_lines (s : GameState) :
    check_for_win s = all_lines.any fun l => line_check s.board l := by
  unfold check_for_win all_lines
  rw [finRange_four]
  simp only [List.any_cons, List.any_nil, check_row_win_eq, check_column_win_eq,
    check_diagonal_wins_eq, Bool.or_false, Bool.or_assoc]

/-- C3: `check_for_win(state)` is true iff some line (one of the 4 rows, 4
columns, or 2 diagonals) has all 4 cells occupied and its 4 pieces unanimous
on at least one of the four boolean attributes; a line with an empty cell
never counts, and a completed line sharing no attribute never counts. -/
theorem C3_check_for_win_iff (s : GameState) :
    check_for_win s = true ↔ SpecWin s := by
  rw [check_for_win_eq_lines, List.any_eq_true]
  unfold SpecWin
  refine exists_congr fun l => and_congr_right fun hl => ?_
  simp only [all_lines, List.mem_cons, List.not_mem_nil, or_false] at hl
  rcases hl with rfl | rfl | rfl | rfl | rfl | rfl | rfl | rfl | rfl | rfl <;>
    exact line_check_iff _ _ _ _ _

/-! ## Characterizations of the two engine operations -/

/-- The spec's cyclic player switch: player1 ↔ player2, robot yields to
player1. -/
def next_player : Player → Player
  | .player1 => .player2
  | .player2 => .player1
  | .robot => .player1

lemma switch_player_fields (s : GameState) :
    (switch_player s).selected_piece = s.selected_piece ∧
    (switch_player s).available_pieces = s.available_pieces ∧
    (switch_player s).current_player = next_player s.current_player := by
  unfold switch_player next_player
  cases hc : s.current_player <;> exact ⟨rfl, rfl, rfl⟩

lemma is_valid_piece_selection_iff (s : GameState) (pid : Int) :
    is_valid_piece_selection s pid = true ↔
    (0 ≤ pid ∧ pid ≤ 15 ∧ pid ∈ s.available_pieces ∧ s.selected_piece = none) := by
  unfold is_valid_piece_selection
  constructor
  · intro h
    split_ifs at h with h1 h2 h3
    push_neg at h1
    refine ⟨by omega, by omega, by simpa using h2, ?_⟩
    simpa [Option.not_isSome_iff_eq_none] using h3
  · rintro ⟨h0, h15, hmem, hsel⟩
    rw [if_neg (by omega), if_neg (not_not.mpr hmem), if_neg (by simp [hsel])]

lemma select_invalid (s : GameState) (pid : Int)
    (hv : ¬ is_valid_piece_selection s pid = true) :
    select_piece_for_opponent s pid = (.ok false, s) := by
  unfold select_piece_for_opponent
  rw [if_pos hv]

lemma select_success (s : GameState) (pid : Int) (p : QuartoPiece)
    (hv : is_valid_piece_selection s pid = true)
    (hp : create_piece_from_id pid = some p) :
    select_piece_for_opponent s pid =
      (.ok true, switch_player
        { s with selected_piece := some p
               , available_pieces := s.available_pieces.erase pid }) := by
  have hmem : pid ∈ s.available_pieces :=
    ((is_valid_piece_selection_iff s pid).mp hv).2.2.1
  unfold select_piece_for_opponent
  rw [if_neg (by simp [hv]), hp]
  dsimp only
  unfold set_remove
  rw [if_pos hmem]

lemma valid_placement_selected (s : GameState) (row col : Int)
    (h : is_valid_placement s row col s.selected_piece = true) :
    ∃ sp, s.selected_piece = some sp := by
  rcases hsel : s.selected_piece with _ | sp
  · exfalso
    unfold is_valid_placement at h
    rw [hsel] at h
    simp at h
  · exact ⟨sp, rfl⟩

lemma make_move_invalid (s : GameState) (row col : Int)
    (hv : ¬ is_valid_placement s row col s.selected_piece = true) :
    make_move s row col = (.ok false, s) := by
  unfold make_move
  rw [if_pos hv]

lemma make_move_success (s : GameState) (row col : Int) (sp : QuartoPiece)
    (hsel : s.selected_piece = some sp)
    (hv : is_valid_placement s row col s.selected_piece = true)
    (hmem : sp.id ∈ s.available_pieces) :
    make_move s row col =
      (.ok true, update_game_status
        { s with board := set_cell s.board row col sp
               , available_pieces := s.available_pieces.erase sp.id
               , turn_count := s.turn_count + 1
               , selected_piece := none }) := by
  unfold make_move
  rw [if_neg (by simp [hv]), hsel]
  dsimp only
  unfold set_remove
  rw [if_pos hmem]

lemma make_move_keyerror (s : GameState) (row col : Int) (sp : QuartoPiece)
    (hsel : s.selected_piece = some sp)
    (hv : is_valid_placement s row col s.selected_piece = true)
    (hmem : sp.id ∉ s.available_pieces) :
    make_move s row col =
      (.keyError, { s with board := set_cell s.board row col sp }) := by
  unfold make_move
  rw [if_neg (by simp [hv]), hsel]
  dsimp only
  unfold set_remove
  rw [if_neg hmem]

/-- Status and winner updates never change `check_for_win` (it reads only
the board). -/
lemma check_for_win_update_game_status (s : GameState) :
    check_for_win (update_game_status s) = check_for_win s := by
  unfold update_game_status
  split_ifs <;> rfl

/-- C4: `select_piece_for_opponent` succeeds iff the id is in `[0,15]`, in
the pool, and nothing is pending; on success it stores the piece built from
the id, erases the id from the pool, and switches the player cyclically
(player1 → player2, player2 → player1, robot → player1). -/
theorem C4_select_piece_spec (s : GameState) (pid : Int) :
    ((select_piece_for_opponent s pid).1 = PyResult.ok true ↔
      is_valid_piece_selection s pid = true) ∧
    (is_valid_piece_selection s pid = true ↔
      (0 ≤ pid ∧ pid ≤ 15 ∧ pid ∈ s.available_pieces ∧ s.selected_piece = none)) ∧
    (is_valid_piece_selection s pid = true →
      (select_piece_for_opponent s pid).2.selected_piece = create_piece_from_id pid ∧
      (select_piece_for_opponent s pid).2.available_pieces =
        s.available_pieces.erase pid ∧
      (select_piece_for_opponent s pid).2.current_player =
        next_player s.current_player) := by
  by_cases hv : is_valid_piece_selection s pid = true
  · obtain ⟨h0, h15, hmem, hsel⟩ := (is_valid_piece_selection_iff s pid).mp hv
    have hp : ∃ p, create_piece_from_id pid = some p := by
      unfold create_piece_from_id
      rw [if_pos ⟨h0, h15⟩]
      exact ⟨_, rfl⟩
    obtain ⟨p, hp⟩ := hp
    rw [select_success s pid p hv hp]
    refine ⟨by simp [hv], is_valid_piece_selection_iff s pid, fun _ => ?_⟩
    obtain ⟨e1, e2, e3⟩ := switch_player_fields
      { s with selected_piece := some p
             , available_pieces := s.available_pieces.erase pid }
    exact ⟨by rw [show ((PyResult.ok true, switch_player _) : PyResult × GameState).2 =
              switch_player _ from rfl, e1, hp],
           by rw [show ((PyResult.ok true, switch_player _) : PyResult × GameState).2 =
              switch_player _ from rfl, e2],
           by rw [show ((PyResult.ok true, switch_player _) : PyResult × GameState).2 =
              switch_player _ from rfl, e3]⟩
  · rw [select_invalid s pid hv]
    exact ⟨by simp [hv], is_valid_piece_selection_iff s pid, fun h => absurd h hv⟩

/-- C5: when a placement succeeds and the resulting position is a win, the
status becomes finished and the winner is the player who placed — the value
of `current_player` at placement time (placement never switches players). -/
theorem C5_winner_is_mover (s : GameState) (row col : Int)
    (h1 : (make_move s row col).1 = PyResult.ok true)
    (h2 : check_for_win (make_move s row col).2 = true) :
    (make_move s row col).2.game_status = GameStatus.finished ∧
    (make_move s row col).2.winner = some s.current_player := by
  by_cases hv : is_valid_placement s row col s.selected_piece = true
  · obtain ⟨sp, hsel⟩ := valid_placement_selected s row col hv
    by_cases hmem : sp.id ∈ s.available_pieces
    · rw [make_move_success s row col sp hsel hv hmem] at h2 ⊢
      dsimp only at h2 ⊢
      rw [check_for_win_update_game_status] at h2
      unfold update_game_status
      rw [if_pos h2]
      exact ⟨rfl, rfl⟩
    · rw [make_move_keyerror s row col sp hsel hv hmem] at h1
      simp at h1
  · rw [make_move_invalid s row col hv] at h1
    simp at h1

/-- C6 (amended): the engine does not itself consult the terminal status:
in a state whose status is not ongoing, each operation is rejected exactly
when its phase-level validity predicate fails, and a rejected call leaves
the state unchanged — but a call whose phase-level preconditions hold is
not blocked by the terminal status. -/
theorem C6_terminal_not_enforced (s : GameState)
    (hterm : s.game_status ≠ GameStatus.ongoing) (pid row col : Int) :
    ((select_piece_for_opponent s pid).1 = PyResult.ok false ↔
      ¬ is_valid_piece_selection s pid = true) ∧
    ((select_piece_for_opponent s pid).1 = PyResult.ok false →
      (select_piece_for_opponent s pid).2 = s) ∧
    ((make_move s row col).1 = PyResult.ok false ↔
      ¬ is_valid_placement s row col s.selected_piece = true) ∧
    ((make_move s row col).1 = PyResult.ok false →
      (make_move s row col).2 = s) := by
  have hsel_branch : ∀ g : Prop, (is_valid_piece_selection s pid = true → g) →
      (¬ is_valid_piece_selection s pid = true → g) → g := fun g a b => by
    by_cases hv : is_valid_piece_selection s pid = true
    · exact a hv
    · exact b hv
  refine ⟨?_, ?_, ?_, ?_⟩
  · by_cases hv : is_valid_piece_selection s pid = true
    · obtain ⟨h0, h15, hmem, hsel⟩ := (is_valid_piece_selection_iff s pid).mp hv
      have hp : ∃ p, create_piece_from_id pid = some p := by
        unfold create_piece_from_id
        rw [if_pos ⟨h0, h15⟩]
        exact ⟨_, rfl⟩
      obtain ⟨p, hp⟩ := hp
      rw [select_success s pid p hv hp]
      simp [hv]
    · rw [select_invalid s pid hv]
      simp [hv]
  · intro h
    by_cases hv : is_valid_piece_selection s pid = true
    · obtain ⟨h0, h15, hmem, hsel⟩ := (is_valid_piece_selection_iff s pid).mp hv
      have hp : ∃ p, create_piece_from_id pid = some p := by
        unfold create_piece_from_id
        rw [if_pos ⟨h0, h15⟩]
        exact ⟨_, rfl⟩
      obtain ⟨p, hp⟩ := hp
      rw [select_success s pid p hv hp] at h
      simp at h
    · rw [select_invalid s pid hv]
  · by_cases hv : is_valid_placement s row col s.selected_piece = true
    · obtain ⟨sp, hsel⟩ := valid_placement_selected s row col hv
      by_cases hmem : sp.id ∈ s.available_pieces
      · rw [make_move_success s row col sp hsel hv hmem]
        simp [hv]
      · rw [make_move_keyerror s row col sp hsel hv hmem]
        simp [hv]
    · rw [make_move_invalid s row col hv]
      simp [hv]
  · intro h
    by_cases hv : is_valid_placement s row col s.selected_piece = true
    · obtain ⟨sp, hsel⟩ := valid_placement_selected s row col hv
      by_cases hmem : sp.id ∈ s.available_pieces
      · rw [make_move_success s row col sp hsel hv hmem] at h
        simp at h
      · rw [make_move_keyerror s row col sp hsel hv hmem] at h
        simp at h
    · rw [make_move_invalid s row col hv]

/-! ## Concrete states -/

/-- The piece with a given id, exactly as `create_piece_from_id` builds it. -/
def piece_of_nat (n : Nat) : QuartoPiece :=
  { id := (n : Int), tall := n &&& 1 != 0, square := n &&& 2 != 0
  , light := n &&& 4 != 0, solid := n &&& 8 != 0 }

/-- The state after the first legal selection of the game: piece 0 pending,
pool of 15, player2 to move. -/
def after_first_selection : GameState := (select_piece_for_opponent initialState 0).2

/-- The state the caller observes after attempting the first placement. -/
def after_first_placement : GameState := (make_move after_first_selection 0 0).2

/-- A finished position: row 0 holds pieces 0, 2, 4, 6 (all short), status
finished. -/
def finished_board : Board := fun i j =>
  if i = 0 then some (piece_of_nat (2 * (j : Nat))) else none

def finished_state : GameState :=
  { game_id := "finished"
  , current_player := .player2
  , board := finished_board
  , available_pieces := initial_pool \ {0, 2, 4, 6}
  , selected_piece := none
  , game_status := .finished
  , winner := some .player2
  , turn_count := 4 }

/-- Row 0 holds pieces 0, 2, 4 (all short), piece 6 pending at the cell
(0,3).  The pool still contains the pending id 6 — the only kind of state
in which the code's `make_move` can run to completion. -/
def win_board : Board := fun i j =>
  if i = 0 ∧ (j : Nat) < 3 then some (piece_of_nat (2 * (j : Nat))) else none

def win_state : GameState :=
  { game_id := "about_to_win"
  , current_player := .player2
  , board := win_board
  , available_pieces := {6, 8, 9}
  , selected_piece := some (piece_of_nat 6)
  , game_status := .ongoing
  , winner := none
  , turn_count := 5 }

/-! ## Remaining claims -/

/-- C1 (failing input): after the legal selection of piece 0 from the fresh
state, the pending piece's id is no longer in the pool, the target cell
(0,0) is an in-bounds empty cell — yet `make_move` raises `KeyError`
(from `available_pieces.remove`) instead of returning `True`. -/
theorem C1_make_move_raises :
    after_first_selection.selected_piece = some (piece_of_nat 0) ∧
    (0 : Int) ∉ after_first_selection.available_pieces ∧
    get_piece_at after_first_selection 0 0 = none ∧
    (make_move after_first_selection 0 0).1 = PyResult.keyError := by
  decide

/-- C2 (failing input): the same call mutates the board cell and then
raises, leaving the selected piece, turn count and pool untouched — a
partially mutated state, neither a clean failure nor a completed success. -/
theorem C2_atomicity_violated :
    (make_move after_first_selection 0 0).1 = PyResult.keyError ∧
    after_first_selection.board 0 0 = none ∧
    after_first_placement.board 0 0 = some (piece_of_nat 0) ∧
    after_first_placement.selected_piece = after_first_selection.selected_piece ∧
    after_first_placement.turn_count = after_first_selection.turn_count ∧
    after_first_placement.available_pieces = after_first_selection.available_pieces ∧
    after_first_placement ≠ after_first_selection := by
  decide

/-- States reachable from the fresh state by the engine operations.  A
Python call mutates the state in place, so the state at the moment an
exception propagates to the caller is also a reached state. -/
inductive Reachable : GameState → Prop where
  | init : Reachable initialState
  | select (s : GameState) (pid : Int) : Reachable s →
      Reachable (select_piece_for_opponent s pid).2
  | move (s : GameState) (row col : Int) : Reachable s →
      Reachable (make_move s row col).2
  | reset (s : GameState) : Reachable s → Reachable (reset_game s)

/-- The ids of the pieces placed on the board. -/
def placed_ids (s : GameState) : Finset Int :=
  (((List.finRange 4).map fun i =>
    (List.finRange 4).filterMap fun j => (s.board i j).map (·.id)).flatten).toFinset

/-- C7 (failing input): in the reachable state after select-piece-0 then
place-at-(0,0), id 0 is simultaneously a placed id and the selected piece's
id — the three classes are not pairwise disjoint. -/
theorem C7_partition_violated :
    Reachable after_first_placement ∧
    (0 : Int) ∈ placed_ids after_first_placement ∧
    after_first_placement.selected_piece = some (piece_of_nat 0) ∧
    (piece_of_nat 0).id = 0 :=
  ⟨Reachable.move after_first_selection 0 0
      (Reachable.select initialState 0 Reachable.init),
   by decide, by decide, by decide⟩

/-- The four-attribute tuple of a piece. -/
def attr_tuple (p : QuartoPiece) : Bool × Bool × Bool × Bool :=
  (p.tall, p.square, p.light, p.solid)

/-- C8: `create_piece_from_id` is deterministic, total exactly on `[0,15]`
(out-of-range errors elsewhere), the 16 pieces are pairwise distinct in
their attribute tuples, and `get_all_pieces` lists exactly those 16 pieces
with ids ascending. -/
theorem C8_piece_enumeration :
    (∀ pid : Int, ∀ p q : QuartoPiece,
      create_piece_from_id pid = some p → create_piece_from_id pid = some q →
      p = q) ∧
    (∀ pid : Int, ¬(0 ≤ pid ∧ pid ≤ 15) → create_piece_from_id pid = none) ∧
    (∀ i : Fin 16, create_piece_from_id ((i : Nat) : Int) =
      some (piece_of_nat (i : Nat))) ∧
    (∀ i j : Fin 16, i ≠ j →
      attr_tuple (piece_of_nat (i : Nat)) ≠ attr_tuple (piece_of_nat (j : Nat))) ∧
    get_all_pieces.length = 16 ∧
    (∀ k : Fin 16, get_all_pieces[(k : Nat)]? =
      create_piece_from_id ((k : Nat) : Int)) := by
  refine ⟨?_, ?_, by decide, by decide, by decide, by decide⟩
  · intro pid p q hp hq
    rw [hp] at hq
    exact Option.some_inj.mp hq
  · intro pid h
    unfold create_piece_from_id
    rw [if_neg h]

theorem C8_piece_enumeration_witness :
    piece_of_nat 3 = piece_of_nat 3 ∧ create_piece_from_id 16 = none ∧
    attr_tuple (piece_of_nat 3) ≠ attr_tuple (piece_of_nat 5) :=
  ⟨C8_piece_enumeration.1 3 (piece_of_nat 3) (piece_of_nat 3) (by decide) (by decide),
   C8_piece_enumeration.2.1 16 (by decide),
   C8_piece_enumeration.2.2.2.1 3 5 (by decide)⟩

/-- C9: `reset_game` restores, for every state, the empty board, the full
pool `{0..15}`, no selection, ongoing status with no winner, turn count 0
and the designated starting player (player1). -/
theorem C9_reset_restores_initial (s : GameState) :
    (∀ i j : Fin 4, (reset_game s).board i j = none) ∧
    (∀ n : Int, n ∈ (reset_game s).available_pieces ↔ 0 ≤ n ∧ n < 16) ∧
    (reset_game s).selected_piece = none ∧
    (reset_game s).game_status = GameStatus.ongoing ∧
    (reset_game s).winner = none ∧
    (reset_game s).turn_count = 0 ∧
    (reset_game s).current_player = Player.player1 := by
  refine ⟨fun i j => rfl, ?_, rfl, rfl, rfl, rfl, rfl⟩
  intro n
  show n ∈ initial_pool ↔ _
  unfold initial_pool
  simp only [Finset.mem_image, Finset.mem_range]
  constructor
  · rintro ⟨a, ha, rfl⟩
    constructor <;> omega
  · rintro ⟨h0, h16⟩
    exact ⟨n.toNat, by omega, by omega⟩

theorem C9_reset_witness :
    (reset_game finished_state).turn_count = 0 ∧
    (reset_game finished_state).current_player = Player.player1 ∧
    (0 : Int) ∈ (reset_game finished_state).available_pieces :=
  ⟨(C9_reset_restores_initial finished_state).2.2.2.2.2.1,
   (C9_reset_restores_initial finished_state).2.2.2.2.2.2,
   ((C9_reset_restores_initial finished_state).2.1 0).mpr (by decide)⟩

/-- C10: `get_piece_at` is total: in-bounds coordinates read the cell, any
out-of-bounds coordinate reads as `None` instead of failing. -/
theorem C10_get_piece_at_total (s : GameState) (row col : Int) :
    (∀ h : 0 ≤ row ∧ row < 4 ∧ 0 ≤ col ∧ col < 4,
      get_piece_at s row col = s.board ⟨row.toNat, by omega⟩ ⟨col.toNat, by omega⟩) ∧
    (¬(0 ≤ row ∧ row < 4 ∧ 0 ≤ col ∧ col < 4) → get_piece_at s row col = none) := by
  constructor
  · intro h
    unfold get_piece_at
    rw [dif_pos h]
  · intro h
    unfold get_piece_at
    rw [dif_neg h]

theorem C10_get_piece_at_witness :
    get_piece_at initialState 2 3 = initialState.board 2 3 ∧
    get_piece_at initialState 5 0 = none ∧
    get_piece_at initialState 0 (-1) = none :=
  ⟨(C10_get_piece_at_total initialState 2 3).1 (by decide),
   (C10_get_piece_at_total initialState 5 0).2 (by decide),
   (C10_get_piece_at_total initialState 0 (-1)).2 (by decide)⟩

/-- C6 (counterexample): `finished_state` is terminal, nothing is pending
and the pool still holds id 1; selecting piece 1 is *not* rejected — it
succeeds and mutates the state, because the validators never consult the
status. -/
theorem C6_counterexample :
    finished_state.game_status ≠ GameStatus.ongoing ∧
    (select_piece_for_opponent finished_state 1).1 = PyResult.ok true ∧
    (select_piece_for_opponent finished_state 1).2 ≠ finished_state := by
  decide

theorem C6_terminal_witness :
    (make_move finished_state 0 0).2 = finished_state :=
  (C6_terminal_not_enforced finished_state (by decide) 20 0 0).2.2.2 (by decide)

theorem C3_win_witness : SpecWin finished_state :=
  (C3_check_for_win_iff finished_state).mp (by decide)

theorem C4_select_witness :
    (select_piece_for_opponent initialState 0).2.selected_piece =
      create_piece_from_id 0 ∧
    (select_piece_for_opponent initialState 0).2.available_pieces =
      initialState.available_pieces.erase 0 ∧
    (select_piece_for_opponent initialState 0).2.current_player = Player.player2 := by
  have h := (C4_select_piece_spec initialState 0).2.2 (by decide)
  exact ⟨h.1, h.2.1, h.2.2⟩

theorem C5_winner_witness :
    (make_move win_state 0 3).1 = PyResult.ok true ∧
    check_for_win (make_move win_state 0 3).2 = true ∧
    (make_move win_state 0 3).2.game_status = GameStatus.finished ∧
    (make_move win_state 0 3).2.winner = some Player.player2 :=
  ⟨by decide, by decide,
   (C5_winner_is_mover win_state 0 3 (by decide) (by decide)).1,
   (C5_winner_is_mover win_state 0 3 (by decide) (by decide)).2⟩

end Quarto
